import Mathlib

/-!
Shallow embedding of the t-rex core under verification:
`t-rex-core/src/core/grid.rs` (tile grid model) and
`t-rex-core/src/datasource/postgis_ds.rs` (PostGIS SQL builder and feature
streamer).  Rust `f64` arithmetic is modelled by exact rationals; each
floating-point literal of the source is carried over as the exact rational it
denotes in decimal.  Integer casts keep the Rust saturating respectively
two's-complement semantics where they are load-bearing.  Database effects
(connection pool, column detection, row cursor) are abstracted into explicit
inputs, and a Rust panic (`unwrap`/`expect`) is modelled as `Option.none`.
-/

namespace TRex

/-- Rust `as i32` cast applied to the (integral) result of `f64::floor` or
`f64::ceil`: saturating at the `i32` range. -/
def sat_i32 (n : ℤ) : ℤ := max (-2147483648) (min 2147483647 n)

/-- Result of an `i32` addition or subtraction: two's-complement wrapping
into `[-2^31, 2^31)`, the release-build overflow semantics (a debug build
would panic on overflow instead). -/
def wrap_i32 (n : ℤ) : ℤ := (n + 2147483648) % 4294967296 - 2147483648

/-- Rust `i32 as u32` cast: two's-complement reinterpretation. -/
def u32_of_i32 (n : ℤ) : ℕ := (n % 4294967296).toNat

/-- Rust `u32 as i32` cast: two's-complement reinterpretation. -/
def i32_of_u32 (n : ℕ) : ℤ :=
  if n < 2147483648 then (n : ℤ) else (n : ℤ) - 4294967296

/-- Rust `f64 as u32` cast applied to an already integral value: saturating. -/
def f64_to_u32 (n : ℤ) : ℕ := (max 0 (min 4294967295 n)).toNat

/-- Rust `i64 as u64` cast: two's-complement reinterpretation. -/
def i64_as_u64 (v : ℤ) : ℕ := (v % 18446744073709551616).toNat

/-- Extent in ground units (grid.rs, `struct Extent`). -/
structure Extent where
  minx : ℚ
  miny : ℚ
  maxx : ℚ
  maxy : ℚ
deriving DecidableEq

/-- Min and max grid cell numbers (grid.rs, `struct ExtentInt`). -/
structure ExtentInt where
  minx : ℕ
  miny : ℕ
  maxx : ℕ
  maxy : ℕ
deriving DecidableEq

/-- Grid origin (grid.rs, `enum Origin`). -/
inductive Origin
  | TopLeft
  | BottomLeft
deriving DecidableEq

/-- Grid units (grid.rs, `enum Unit`). -/
inductive Unit
  | Meters
  | Degrees
  | Feet
deriving DecidableEq

/-- Tile grid (grid.rs, `struct Grid`).  The source precomputes the
`level_max` vector at construction from `Grid::level_max()`; here it is kept
as the derived function `Grid.level_max`, which agrees with that eager
computation for every constructed grid. -/
structure Grid where
  width : ℕ
  height : ℕ
  extent : Extent
  srid : ℤ
  units : Unit
  resolutions : List ℚ
  origin : Origin

/-- grid.rs, `Grid::nlevels`. -/
def Grid.nlevels (g : Grid) : ℕ := g.resolutions.length

/-- grid.rs, `Grid::level_limit`: `(maxx, maxy)` of a grid level, the ceiling
of the extent measured in tiles after shrinking it by 1% of one tile. -/
def Grid.level_limit (g : Grid) (zoom : ℕ) : ℕ × ℕ :=
  let res := g.resolutions.getD zoom 0
  let unitheight := (g.height : ℚ) * res
  let unitwidth := (g.width : ℚ) * res
  let maxy := f64_to_u32 ⌈(g.extent.maxy - g.extent.miny - 0.01 * unitheight) / unitheight⌉
  let maxx := f64_to_u32 ⌈(g.extent.maxx - g.extent.minx - 0.01 * unitwidth) / unitwidth⌉
  (maxx, maxy)

/-- grid.rs, `Grid::level_max`: `(maxx, maxy)` of all grid levels. -/
def Grid.level_max (g : Grid) : List (ℕ × ℕ) :=
  (List.range g.nlevels).map g.level_limit

/-- grid.rs, `Grid::wgs84` (resolutions written as the exact rationals the
source's decimal literals denote). -/
def Grid.wgs84 : Grid where
  width := 256
  height := 256
  extent := { minx := -180, miny := -90, maxx := 180, maxy := 90 }
  srid := 4326
  units := Unit.Degrees
  resolutions :=
    [0.703125,
     0.3515625,
     0.17578125,
     0.087890625,
     0.0439453125,
     0.02197265625,
     0.010986328125,
     0.0054931640625,
     0.00274658203125,
     0.001373291015625,
     0.0006866455078125,
     0.00034332275390625,
     0.000171661376953125,
     0.0000858306884765625,
     0.0000429153442382812,
     0.0000214576721191406,
     0.0000107288360595703,
     0.00000536441802978516]
  origin := Origin.BottomLeft

/-- grid.rs, `Grid::web_mercator` (resolutions written as the exact rationals
the source's decimal literals denote). -/
def Grid.web_mercator : Grid where
  width := 256
  height := 256
  extent :=
    { minx := -20037508.342789248
      miny := -20037508.342789248
      maxx := 20037508.342789248
      maxy := 20037508.342789248 }
  srid := 3857
  units := Unit.Meters
  resolutions :=
    [156543.033928041,
     78271.5169640205,
     39135.75848201025,
     19567.879241005125,
     9783.939620502562,
     4891.969810251281,
     2445.9849051256406,
     1222.9924525628203,
     611.4962262814101,
     305.7481131407051,
     152.87405657035254,
     76.43702828517627,
     38.218514142588134,
     19.109257071294067,
     9.554628535647034,
     4.777314267823517,
     2.3886571339117584,
     1.1943285669558792,
     0.5971642834779396,
     0.2985821417389698,
     0.1492910708694849,
     0.07464553543474245,
     0.037322767717371225]
  origin := Origin.BottomLeft

/-- grid.rs, `Grid::pixel_width`. -/
def Grid.pixel_width (g : Grid) (zoom : ℕ) : ℚ :=
  let meters_per_degree : ℚ := 6378137.0 * 2 * 3.141592653589793 / 360
  match g.units with
  | Unit.Meters => g.resolutions.getD zoom 0
  | Unit.Degrees => g.resolutions.getD zoom 0 * meters_per_degree
  | Unit.Feet => g.resolutions.getD zoom 0 * 0.3048

/-- grid.rs, `Grid::tile_extent`: extent of a tile given its x, y, z in the
TMS addressing scheme. -/
def Grid.tile_extent (g : Grid) (xtile ytile : ℕ) (zoom : ℕ) : Extent :=
  let res := g.resolutions.getD zoom 0
  let tile_sx := (g.width : ℚ)
  let tile_sy := (g.height : ℚ)
  match g.origin with
  | Origin.BottomLeft =>
    { minx := g.extent.minx + res * (xtile : ℚ) * tile_sx
      miny := g.extent.miny + res * (ytile : ℚ) * tile_sy
      maxx := g.extent.minx + res * ((xtile : ℚ) + 1) * tile_sx
      maxy := g.extent.miny + res * ((ytile : ℚ) + 1) * tile_sy }
  | Origin.TopLeft =>
    { minx := g.extent.minx + res * (xtile : ℚ) * tile_sx
      miny := g.extent.maxy - res * ((ytile : ℚ) + 1) * tile_sy
      maxx := g.extent.minx + res * ((xtile : ℚ) + 1) * tile_sx
      maxy := g.extent.maxy - res * (ytile : ℚ) * tile_sy }

/-- grid.rs, `Grid::ytile_from_xyz`: reverse the y tile index for the XYZ
addressing scheme (`maxy.saturating_sub(ytile).saturating_sub(1)`, which is
truncated subtraction on `ℕ`). -/
def Grid.ytile_from_xyz (g : Grid) (ytile : ℕ) (zoom : ℕ) : ℕ :=
  let maxy := (g.level_max.getD zoom (0, 0)).2
  maxy - ytile - 1

/-- grid.rs, `Grid::tile_limits`: tile index limits covering an extent, one
`ExtentInt` per zoom level. -/
def Grid.tile_limits (g : Grid) (extent : Extent) (tolerance : ℤ) : List ExtentInt :=
  (List.range g.nlevels).map fun i =>
    let res := g.resolutions.getD i 0
    let unitheight := (g.height : ℚ) * res
    let unitwidth := (g.width : ℚ) * res
    let level_maxx := (g.level_max.getD i (0, 0)).1
    let level_maxy := (g.level_max.getD i (0, 0)).2
    let eps : ℚ := 0.0000001
    let raw : ℤ × ℤ × ℤ × ℤ :=
      match g.origin with
      | Origin.BottomLeft =>
        (wrap_i32 (sat_i32 ⌊(extent.minx - g.extent.minx) / unitwidth + eps⌋ - tolerance),
         wrap_i32 (sat_i32 ⌈(extent.maxx - g.extent.minx) / unitwidth - eps⌉ + tolerance),
         wrap_i32 (sat_i32 ⌊(extent.miny - g.extent.miny) / unitheight + eps⌋ - tolerance),
         wrap_i32 (sat_i32 ⌈(extent.maxy - g.extent.miny) / unitheight - eps⌉ + tolerance))
      | Origin.TopLeft =>
        (wrap_i32 (sat_i32 ⌊(extent.minx - g.extent.minx) / unitwidth + eps⌋ - tolerance),
         wrap_i32 (sat_i32 ⌈(extent.maxx - g.extent.minx) / unitwidth - eps⌉ + tolerance),
         wrap_i32 (sat_i32 ⌊(g.extent.maxy - extent.maxy) / unitheight + eps⌋ - tolerance),
         wrap_i32 (sat_i32 ⌈(g.extent.maxy - extent.miny) / unitheight - eps⌉ + tolerance))
    let minx := raw.1
    let maxx := raw.2.1
    let miny := raw.2.2.1
    let maxy := raw.2.2.2
    let minx := if minx < 0 then 0 else minx
    let maxx := if maxx > i32_of_u32 level_maxx then i32_of_u32 level_maxx else maxx
    let miny := if miny < 0 then 0 else miny
    let maxy := if maxy > i32_of_u32 level_maxy then i32_of_u32 level_maxy else maxy
    { minx := u32_of_i32 minx
      miny := u32_of_i32 miny
      maxx := u32_of_i32 maxx
      maxy := u32_of_i32 maxy }

/-- Prefix test on character lists (Rust `str::starts_with` semantics). -/
def isPrefixL : List Char → List Char → Bool
  | [], _ => true
  | _ :: _, [] => false
  | a :: pat, b :: s => a = b && isPrefixL pat s

/-- Substring test on character lists (Rust `str::contains` semantics). -/
def containsL (pat : List Char) : List Char → Bool
  | [] => isPrefixL pat []
  | c :: rest => isPrefixL pat (c :: rest) || containsL pat rest

/-- Replace every (leftmost, non-overlapping) occurrence of a pattern, as
Rust `str::replace` does for a non-empty pattern.  The second argument
counts characters of a just-matched pattern still to be skipped. -/
def replaceAux (pat repl : List Char) : List Char → ℕ → List Char
  | [], _ => []
  | _ :: rest, Nat.succ k => replaceAux pat repl rest k
  | c :: rest, 0 =>
    if 0 < pat.length ∧ isPrefixL pat (c :: rest) then
      repl ++ replaceAux pat repl rest (pat.length - 1)
    else
      c :: replaceAux pat repl rest 0

/-- Rust `str::starts_with`. -/
def strStartsWith (s pat : String) : Bool := isPrefixL pat.data s.data

/-- Rust `str::contains` (for the non-empty literal patterns the source uses). -/
def strContains (s pat : String) : Bool := containsL pat.data s.data

/-- Rust `str::replace` (for the non-empty literal patterns the source uses). -/
def strReplace (s pat repl : String) : String := ⟨replaceAux pat.data repl.data s.data 0⟩

/-- Rust `Vec::join` on strings. -/
def join_sep (sep : String) : List String → String
  | [] => ""
  | [s] => s
  | s :: rest => s ++ sep ++ join_sep sep rest

/-- Per-zoom user query entry of the external layer config
(`layer.query` vector).  Modelled from the spec: the `Layer` type lives in
`t-rex-core/src/core/layer.rs`, which is not among the sources; the fields
are the ones §3 of the spec lists and `postgis_ds.rs` uses. -/
structure LayerQuery where
  minzoom : ℕ
  maxzoom : Option ℕ
  sql : Option String
deriving DecidableEq

/-- Modelled from the spec: the external `Layer` config struct (§3 of the
spec; `t-rex-core/src/core/layer.rs` is not among the sources).  `simplify`
and `tolerance` are per-layer values as `postgis_ds.rs` consumes them;
`tolerance` is kept in the textual form in which it is interpolated into
SQL.  `minzoom`/`maxzoom` model the `minzoom()`/`maxzoom(default)`
accessors. -/
structure Layer where
  name : String
  table_name : Option String
  geometry_field : Option String
  geometry_type : Option String
  srid : Option ℤ
  fid_field : Option String
  buffer_size : Option ℕ
  make_valid : Bool
  simplify : Bool
  tolerance : String
  no_transform : Bool
  shift_longitude : Bool
  query : List LayerQuery
  minzoom : ℕ
  maxzoom : Option ℕ
  query_limit : Option ℕ
deriving DecidableEq

/-- Modelled from the spec: `layer.query(zoom)` returns the user SQL
configured for that zoom level, if any. -/
def Layer.query_at (l : Layer) (zoom : ℕ) : Option String :=
  (l.query.find? fun lq =>
    decide (lq.minzoom ≤ zoom ∧ zoom ≤ lq.maxzoom.getD 22)).bind (fun lq => lq.sql)

/-- postgis_ds.rs, `enum QueryParam`. -/
inductive QueryParam
  | Bbox
  | Zoom
  | PixelWidth
  | ScaleDenominator
deriving DecidableEq

/-- postgis_ds.rs, `struct SqlQuery`. -/
structure SqlQuery where
  sql : String
  params : List QueryParam
deriving DecidableEq

/-- Positional slots a bound parameter occupies (`!bbox!` expands to four
placeholders, the others to one). -/
def slots : QueryParam → ℕ
  | QueryParam.Bbox => 4
  | _ => 1

/-- postgis_ds.rs, `SqlQuery::replace_params`: replace the `!bbox!`,
`!zoom!`, `!pixel_width!`, `!scale_denominator!` tokens, in that order,
keeping one global placeholder counter (`numvars`). -/
def SqlQuery.replace_params (q : SqlQuery) (bbox_expr : String) : SqlQuery :=
  let st0 : String × List QueryParam × ℕ :=
    if strContains q.sql "!bbox!" then
      (strReplace q.sql "!bbox!" bbox_expr, q.params ++ [QueryParam.Bbox], 4)
    else
      (q.sql, q.params, 0)
  let step : String × List QueryParam × ℕ → String × QueryParam × String →
      String × List QueryParam × ℕ := fun st v =>
    if strContains st.1 v.1 then
      let numvars := st.2.2 + 1
      let repl :=
        if v.2.2 = "" then "$" ++ toString numvars
        else "$" ++ toString numvars ++ "::" ++ v.2.2
      (strReplace st.1 v.1 repl, st.2.1 ++ [v.2.1], numvars)
    else st
  let st := [("!zoom!", QueryParam.Zoom, ""),
             ("!pixel_width!", QueryParam.PixelWidth, "FLOAT8"),
             ("!scale_denominator!", QueryParam.ScaleDenominator, "FLOAT8")].foldl step st0
  { sql := st.1, params := st.2.1 }

/-- Specification-shaped form of `replace_params`: scan for the four tokens
in the fixed order and give the k-th present token the placeholder number
`4·[bbox present] + k`, with a `::FLOAT8` cast for pixel-width and
scale-denominator and no cast for zoom. -/
def replace_params_spec (q : SqlQuery) (bbox_expr : String) : SqlQuery :=
  let b := strContains q.sql "!bbox!"
  let sql0 := if b then strReplace q.sql "!bbox!" bbox_expr else q.sql
  let base := if b then 4 else 0
  let z := strContains sql0 "!zoom!"
  let sql1 := if z then strReplace sql0 "!zoom!" ("$" ++ toString (base + 1)) else sql0
  let nz := if z then 1 else 0
  let p := strContains sql1 "!pixel_width!"
  let sql2 :=
    if p then
      strReplace sql1 "!pixel_width!" ("$" ++ toString (base + nz + 1) ++ "::" ++ "FLOAT8")
    else sql1
  let np := if p then 1 else 0
  let sd := strContains sql2 "!scale_denominator!"
  let sql3 :=
    if sd then
      strReplace sql2 "!scale_denominator!"
        ("$" ++ toString (base + nz + np + 1) ++ "::" ++ "FLOAT8")
    else sql2
  { sql := sql3
    params := q.params ++ (if b then [QueryParam.Bbox] else []) ++
      (if z then [QueryParam.Zoom] else []) ++
      (if p then [QueryParam.PixelWidth] else []) ++
      (if sd then [QueryParam.ScaleDenominator] else []) }

/-- postgis_ds.rs, `PostgisDatasource::build_geom_expr`.  `none` models the
panic of `.expect("geometry_field undefined")`. -/
def build_geom_expr (layer : Layer) (grid_srid : ℤ) : Option String :=
  match layer.geometry_field with
  | none => none
  | some geom_name =>
    let layer_srid := layer.srid.getD 0
    let gt := layer.geometry_type.getD "GEOMETRY"
    let e1 :=
      if gt = "CURVEPOLYGON" ∨ gt = "COMPOUNDCURVE" then
        "ST_CurveToLine(" ++ geom_name ++ ")"
      else geom_name
    let e2 :=
      if layer.buffer_size.isSome then
        let valid_geom := if layer.make_valid then "ST_MakeValid(" ++ e1 ++ ")" else e1
        if gt = "POLYGON" ∨ gt = "MULTIPOLYGON" ∨ gt = "CURVEPOLYGON" then
          "ST_Buffer(ST_Intersection(" ++ valid_geom ++ ",!bbox!), 0.0)"
        else if gt = "POINT" then e1
        else "ST_Intersection(" ++ valid_geom ++ ",!bbox!)"
      else e1
    let e3 :=
      if gt = "MULTIPOINT" ∨ gt = "LINESTRING" ∨ gt = "MULTILINESTRING" ∨
          gt = "COMPOUNDCURVE" ∨ gt = "POLYGON" ∨ gt = "MULTIPOLYGON" ∨
          gt = "CURVEPOLYGON" then
        "ST_Multi(" ++ e2 ++ ")"
      else e2
    let e4 :=
      if layer.simplify then
        if gt = "LINESTRING" ∨ gt = "MULTILINESTRING" ∨ gt = "COMPOUNDCURVE" then
          "ST_Multi(ST_SimplifyPreserveTopology(" ++ e3 ++ "," ++ layer.tolerance ++ "))"
        else if gt = "POLYGON" ∨ gt = "MULTIPOLYGON" ∨ gt = "CURVEPOLYGON" then
          let empty_geom := "ST_GeomFromText(\x27MULTIPOLYGON EMPTY\x27," ++ toString layer_srid ++ ")"
          "COALESCE(ST_SnapToGrid(" ++ e3 ++ ", " ++ layer.tolerance ++ ")," ++ empty_geom ++
            ")::geometry(MULTIPOLYGON," ++ toString layer_srid ++ ")"
        else e3
      else e3
    let e5 :=
      if layer_srid ≤ 0 then "ST_SetSRID(" ++ e4 ++ "," ++ toString grid_srid ++ ")"
      else if layer_srid ≠ grid_srid then
        if layer.no_transform then "ST_SetSRID(" ++ e4 ++ "," ++ toString grid_srid ++ ")"
        else "ST_Transform(" ++ e4 ++ "," ++ toString grid_srid ++ ")"
      else e4
    some (if strStartsWith e5 "ST_" || strStartsWith e5 "COALESCE" then
      e5 ++ " AS " ++ geom_name
    else e5)

/-- postgis_ds.rs, `PostgisDatasource::build_select_list`.  The data columns
detected through the live connection are an explicit input (`data_columns`);
`offline` models `self.conn_pool.is_none()`. -/
def build_select_list (offline : Bool) (data_columns : List (String × String))
    (geom_expr : String) : String :=
  if offline then geom_expr
  else
    let cols := data_columns.map fun nc =>
      if nc.2 = "" then "\"" ++ nc.1 ++ "\""
      else "\"" ++ nc.1 ++ "\"::" ++ nc.2
    join_sep "," (geom_expr :: cols)

/-- postgis_ds.rs, `PostgisDatasource::build_bbox_expr`. -/
def build_bbox_expr (layer : Layer) (grid_srid : ℤ) : String :=
  let layer_srid := layer.srid.getD grid_srid
  let env_srid := if layer_srid ≤ 0 ∨ layer.no_transform then layer_srid else grid_srid
  let expr := "ST_MakeEnvelope($1,$2,$3,$4," ++ toString env_srid ++ ")"
  let expr :=
    match layer.buffer_size with
    | some pixels =>
      if pixels ≠ 0 then "ST_Buffer(" ++ expr ++ "," ++ toString pixels ++ "*!pixel_width!)"
      else expr
    | none => expr
  let expr :=
    if layer_srid > 0 ∧ layer_srid ≠ env_srid ∧ ¬layer.no_transform then
      "ST_Transform(" ++ expr ++ "," ++ toString layer_srid ++ ")"
    else expr
  if layer.shift_longitude then "ST_Shift_Longitude(" ++ expr ++ ")" else expr

/-- postgis_ds.rs, `PostgisDatasource::build_query_sql`.  The outer `none`
models the panic of `.expect("geometry_field undefined")`; `some none` is
the source's `None` (no query for this zoom). -/
def build_query_sql (offline : Bool) (data_columns : List (String × String))
    (layer : Layer) (grid_srid : ℤ) (sql : Option String) (raw_geom : Bool) :
    Option (Option String) :=
  match layer.geometry_field with
  | none => none
  | some geom_name =>
    let geom_expr :=
      if raw_geom then some geom_name else build_geom_expr layer grid_srid
    match geom_expr with
    | none => none
    | some ge =>
      let select_list := build_select_list offline data_columns ge
      let intersect_clause := " WHERE " ++ geom_name ++ " && !bbox!"
      match sql with
      | some userquery =>
        let select := if offline then "*" else select_list
        let q := "SELECT " ++ select ++ " FROM (" ++ userquery ++ ") AS _q"
        some (some (if ¬strContains userquery "!bbox!" then q ++ intersect_clause else q))
      | none =>
        match layer.table_name with
        | none => some none
        | some tn =>
          some (some ("SELECT " ++ select_list ++ " FROM " ++ tn ++ intersect_clause))

/-- postgis_ds.rs, `PostgisDatasource::build_query`. -/
def build_query (offline : Bool) (data_columns : List (String × String))
    (layer : Layer) (grid_srid : ℤ) (sql : Option String) : Option (Option SqlQuery) :=
  match build_query_sql offline data_columns layer grid_srid sql false with
  | none => none
  | some none => some none
  | some (some s) =>
    let bbox_expr := build_bbox_expr layer grid_srid
    some (some (SqlQuery.replace_params { sql := s, params := [] } bbox_expr))

/-- Association-list membership for the per-layer zoom map
(`BTreeMap::contains_key`). -/
def containsKey (qs : List (ℕ × SqlQuery)) (z : ℕ) : Bool :=
  qs.any fun p => p.1 = z

/-- Association-list insert for the per-layer zoom map (`BTreeMap::insert`,
which replaces an existing entry). -/
def insertQ (qs : List (ℕ × SqlQuery)) (z : ℕ) (q : SqlQuery) : List (ℕ × SqlQuery) :=
  if containsKey qs z then qs.map fun p => if p.1 = z then (z, q) else p
  else qs ++ [(z, q)]

/-- Inclusive zoom range `a..=b` (empty when `a > b`). -/
def zoomRange (a b : ℕ) : List ℕ := (List.range (b + 1 - a)).map (a + ·)

/-- postgis_ds.rs, `PostgisDatasource::prepare_queries` for one layer.
`none` models a panic inside `build_query` (missing `geometry_field`);
`some qs` is the zoom→query map inserted for the layer. -/
def prepare_queries (offline : Bool) (data_columns : List (String × String))
    (layer : Layer) (grid_srid : ℤ) : Option (List (ℕ × SqlQuery)) :=
  let step : Option (List (ℕ × SqlQuery)) → LayerQuery → Option (List (ℕ × SqlQuery)) :=
    fun acc lq =>
      match acc with
      | none => none
      | some queries =>
        match build_query offline data_columns layer grid_srid lq.sql with
        | none => none
        | some none => some queries
        | some (some q) =>
          some ((zoomRange lq.minzoom (lq.maxzoom.getD 22)).foldl
            (fun qs zoom =>
              if (layer.query_at zoom).getD "" = lq.sql.getD "" then insertQ qs zoom q
              else qs)
            queries)
  match layer.query.foldl step (some []) with
  | none => none
  | some queries =>
    let has_gaps := (zoomRange layer.minzoom (layer.maxzoom.getD 22)).any
      fun zoom => !containsKey queries zoom
    if has_gaps then
      match build_query offline data_columns layer grid_srid none with
      | none => none
      | some none => some queries
      | some (some q) =>
        some ((zoomRange layer.minzoom (layer.maxzoom.getD 22)).foldl
          (fun qs zoom => if containsKey qs zoom then qs else insertQ qs zoom q)
          queries)
    else some queries

/-- Outcome of decoding one cursor row, as seen by the iterator in
`retrieve_features` (`true` = the row `Result` is `Ok`). -/
structure DbEnv where
  query : Option SqlQuery
  prepare_ok : Bool
  execute_ok : Bool
  rows : List Bool
deriving DecidableEq

/-- Row loop of `retrieve_features`: count rows, honouring `query_limit`;
a row whose `Result` is an error hits `row.unwrap()` and panics (`none`). -/
def retrieve_loop (query_limit : ℕ) : List Bool → ℕ → Option ℕ
  | [], cnt => some cnt
  | r :: rest, cnt =>
    if r then
      let cnt := cnt + 1
      if cnt = query_limit then some cnt else retrieve_loop query_limit rest cnt
    else none

/-- postgis_ds.rs, `PostgisDatasource::retrieve_features`, with the database
interaction abstracted into `DbEnv` (the borrowed pooled connection and the
transaction are assumed to be acquired successfully).  `none` models a
panic, `some n` the returned feature count. -/
def retrieve_features (env : DbEnv) (layer : Layer) : Option ℕ :=
  match env.query with
  | none => some 0
  | some _ =>
    if ¬env.prepare_ok then some 0
    else if ¬env.execute_ok then some 0
    else retrieve_loop (layer.query_limit.getD 0) env.rows 0

/-- postgis_ds.rs, `impl FromSql for FeatureAttrValType` target type
(core/feature.rs variants). -/
inductive FeatureAttrValType
  | String (v : String)
  | Float (v : ℚ)
  | Double (v : ℚ)
  | Int (v : ℤ)
  | Bool (v : Bool)
deriving DecidableEq

/-- postgis_ds.rs, `FeatureRow::fid`: read the `fid_field` column; only an
`Int` value yields a fid, via the `as u64` cast.  A row is modelled as the
map `get_opt` provides: column name to `Option (Except error value)`. -/
def FeatureRow.fid (layer : Layer)
    (row : String → Option (Except String FeatureAttrValType)) : Option ℕ :=
  layer.fid_field.bind fun f =>
    match row f with
    | some (Except.ok (FeatureAttrValType.Int v)) => some (i64_as_u64 v)
    | _ => none

/-- postgis_ds.rs, `DatasourceType::connected` for `PostgisDatasource`:
`let pool_size = 10;` is the hard-coded bound handed to
`r2d2::Pool::builder().max_size(pool_size)`. -/
def connected_pool_size : ℕ := 10

/-- Maximum number of connections of the pool built by `connected()`. -/
def connected_pool_max_size : ℕ := connected_pool_size

/-- Concrete layer used to evaluate the SQL builder: a simplified `POLYGON`
layer in the grid's own SRS. -/
def polyLayer : Layer where
  name := "t"
  table_name := some "tbl"
  geometry_field := some "geom"
  geometry_type := some "POLYGON"
  srid := some 3857
  fid_field := none
  buffer_size := none
  make_valid := false
  simplify := true
  tolerance := "10"
  no_transform := false
  shift_longitude := false
  query := []
  minzoom := 0
  maxzoom := some 1
  query_limit := none

/-- Layer with no `geometry_field` configured. -/
def noGeomLayer : Layer :=
  { polyLayer with geometry_field := none, table_name := some "tbl" }

/-- Layer with neither a `table_name` nor user queries. -/
def noTableLayer : Layer :=
  { polyLayer with table_name := none }

/-- Layer with an fid column configured. -/
def fidLayer : Layer :=
  { polyLayer with fid_field := some "id" }

/-- Row whose `id` column holds the i64 value `-1`. -/
def fidRow : String → Option (Except String FeatureAttrValType) := fun s =>
  if s = "id" then some (Except.ok (FeatureAttrValType.Int (-1))) else none

/-- Database environment whose cursor yields one row that fails to decode. -/
def badRowEnv : DbEnv where
  query := some { sql := "SELECT g FROM t", params := [] }
  prepare_ok := true
  execute_ok := true
  rows := [false]

/-- Database environment with no query for the requested zoom. -/
def emptyQueryEnv : DbEnv where
  query := none
  prepare_ok := true
  execute_ok := true
  rows := []

/-! ## Theorems -/

/-- Ceilings rewritten to floors, so that concrete rational ceilings can be
evaluated by `norm_num` (which has an `Int.floor` extension). -/
theorem qceil_eq_neg_floor_neg (a : ℚ) : ⌈a⌉ = -⌊-a⌋ := by
  rw [← Int.ceil_neg, neg_neg]

/-- Indexing into a mapped range evaluates the mapped function. -/
theorem getD_map_range {α : Type} (n i : ℕ) (f : ℕ → α) (d : α) (h : i < n) :
    ((List.range n).map f).getD i d = f i := by
  rw [List.getD_eq_getElem?_getD, List.getElem?_map, List.getElem?_range h]
  rfl

/-- C2, counterexample: on the wgs84 grid a zoom-0 tile spans 180 degrees
(`level_max[0] = (2, 1)`), so `tile_extent(0, 0, 0)` does not reach
`maxx = 180` as the claim states. -/
theorem c2_counterexample :
    Grid.wgs84.tile_extent 0 0 0 ≠ { minx := -180, miny := -90, maxx := 180, maxy := 90 } := by
  simp only [Grid.tile_extent, Grid.wgs84, List.getD_cons_zero]
  intro h
  have := congrArg Extent.maxx h
  norm_num at this

/-- C2, amended: on the wgs84 grid, `tile_extent(0, 0, 0)` returns the
extent `(-180, -90, 0, 90)` and `level_max[0] = (2, 1)`. -/
theorem c2_theorem :
    Grid.wgs84.tile_extent 0 0 0 = { minx := -180, miny := -90, maxx := 0, maxy := 90 } ∧
    Grid.wgs84.level_max.getD 0 (0, 0) = (2, 1) := by
  constructor
  · simp only [Grid.tile_extent, Grid.wgs84, List.getD_cons_zero]
    norm_num
  · rw [Grid.level_max, getD_map_range _ 0 _ _ (by norm_num [Grid.nlevels, Grid.wgs84])]
    simp only [Grid.level_limit, Grid.wgs84, List.getD_cons_zero]
    norm_num [qceil_eq_neg_floor_neg, f64_to_u32]
    decide

/-- C3, counterexample: on the web_mercator grid, `tile_limits` applied to
the full world extent with tolerance 0 does not return
`ExtentInt\x7b0, 0, 0, 0\x7d` at zoom 0. -/
theorem c3_counterexample :
    (Grid.web_mercator.tile_limits Grid.web_mercator.extent 0).getD 0
      { minx := 0, miny := 0, maxx := 0, maxy := 0 } ≠
    { minx := 0, miny := 0, maxx := 0, maxy := 0 } := by
  rw [Grid.tile_limits, getD_map_range _ 0 _ _ (by norm_num [Grid.nlevels, Grid.web_mercator])]
  rw [Grid.level_max, getD_map_range _ 0 _ _ (by norm_num [Grid.nlevels, Grid.web_mercator])]
  simp only [Grid.level_limit, Grid.web_mercator, List.getD_cons_zero]
  norm_num [qceil_eq_neg_floor_neg, f64_to_u32, sat_i32, wrap_i32, u32_of_i32, i32_of_u32]

/-- C3, amended: on the web_mercator grid, `tile_limits(world_extent, 0)`
at zoom 0 is `ExtentInt\x7bminx: 0, miny: 0, maxx: 1, maxy: 1\x7d` — the
computed `maxx`/`maxy` equal `level_max[0] = (1, 1)`, not 0. -/
theorem c3_theorem :
    (Grid.web_mercator.tile_limits Grid.web_mercator.extent 0).getD 0
      { minx := 0, miny := 0, maxx := 0, maxy := 0 } =
    { minx := 0, miny := 0, maxx := 1, maxy := 1 } := by
  rw [Grid.tile_limits, getD_map_range _ 0 _ _ (by norm_num [Grid.nlevels, Grid.web_mercator])]
  rw [Grid.level_max, getD_map_range _ 0 _ _ (by norm_num [Grid.nlevels, Grid.web_mercator])]
  simp only [Grid.level_limit, Grid.web_mercator, List.getD_cons_zero]
  norm_num [qceil_eq_neg_floor_neg, f64_to_u32, sat_i32, wrap_i32, u32_of_i32, i32_of_u32]

/-- C8, counterexample: the pool size hard-coded in `connected()` is not 8. -/
theorem c8_counterexample : connected_pool_max_size ≠ 8 := by decide

/-- C8, amended: the connection pool built by `connected()` is bounded by a
hard-coded `pool_size` of 10 (`let pool_size = 10; //FIXME: make
configurable`); the configured pool size is not consulted. -/
theorem c8_theorem : connected_pool_max_size = 10 := rfl

/-- C9: `ytile_from_xyz(y, z)` equals `level_max[z].1 - y - 1` with
saturating subtraction (stated over `ℤ` with an explicit `max 0`),
out-of-range inputs `y ≥ level_max[z].1` yield 0, and on web_mercator
`ytile_from_xyz(0, 0) = 0`. -/
theorem c9_theorem (g : Grid) (y zoom : ℕ) (hz : zoom < g.nlevels) :
    ((g.ytile_from_xyz y zoom : ℤ) =
      max 0 (((g.level_max.getD zoom (0, 0)).2 : ℤ) - (y : ℤ) - 1)) ∧
    ((g.level_max.getD zoom (0, 0)).2 ≤ y → g.ytile_from_xyz y zoom = 0) ∧
    Grid.web_mercator.ytile_from_xyz 0 0 = 0 := by
  refine ⟨?_, ?_, ?_⟩
  · rw [Grid.ytile_from_xyz, Int.max_def]
    split_ifs <;> omega
  · intro h
    rw [Grid.ytile_from_xyz]
    omega
  · rw [Grid.ytile_from_xyz, Grid.level_max,
      getD_map_range _ 0 _ _ (by norm_num [Grid.nlevels, Grid.web_mercator])]
    simp only [Grid.level_limit, Grid.web_mercator, List.getD_cons_zero]
    norm_num [qceil_eq_neg_floor_neg, f64_to_u32]

/-- C9, witness: the theorem instantiated on the web_mercator grid at
`y = 0`, `z = 0`. -/
theorem c9_witness : Grid.web_mercator.ytile_from_xyz 0 0 = 0 :=
  (c9_theorem Grid.web_mercator 0 0 (by norm_num [Grid.nlevels, Grid.web_mercator])).2.2

/-- C10: when the `fid_field` column holds an `Int` value `v` (an i64),
`Feature::fid()` returns `Some(v as u64)`, i.e. `v` reduced modulo `2^64`;
a negative value wraps to a u64 of at least `2^63` instead of yielding
`None`. -/
theorem c10_theorem (layer : Layer) (f : String)
    (row : String → Option (Except String FeatureAttrValType)) (v : ℤ)
    (hf : layer.fid_field = some f)
    (hrow : row f = some (Except.ok (FeatureAttrValType.Int v)))
    (hlo : -9223372036854775808 ≤ v) (hhi : v < 9223372036854775808) :
    FeatureRow.fid layer row = some ((v % 18446744073709551616).toNat) ∧
    (v < 0 →
      FeatureRow.fid layer row = some ((v + 18446744073709551616).toNat) ∧
      9223372036854775808 ≤ (v + 18446744073709551616).toNat) := by
  have hfid : FeatureRow.fid layer row = some ((v % 18446744073709551616).toNat) := by
    rw [FeatureRow.fid, hf, Option.some_bind, hrow]
    rfl
  refine ⟨hfid, fun hv => ⟨?_, ?_⟩⟩
  · rw [hfid]
    congr 1
    omega
  · omega

/-- C10, witness: the theorem at a row whose `id` column holds `-1`; the
fid comes back as the wrapped value `2^64 - 1`. -/
theorem c10_witness :
    FeatureRow.fid fidLayer fidRow = some (((-1 : ℤ) + 18446744073709551616).toNat) ∧
    9223372036854775808 ≤ (((-1 : ℤ) + 18446744073709551616)).toNat :=
  (c10_theorem fidLayer "id" fidRow (-1) rfl rfl (by decide) (by decide)).2 (by decide)

/-- C6, counterexample: with a query present and prepare/execute succeeding,
a cursor row whose decode fails makes `retrieve_features` panic
(`row.unwrap()`, modelled as `none`) instead of returning the count fetched
so far (which would be `some 0`). -/
theorem c6_counterexample :
    retrieve_features badRowEnv polyLayer ≠ some 0 ∧
    retrieve_features badRowEnv polyLayer = none := by
  constructor
  · decide
  · decide

/-- Rows that all decode successfully never make the row loop panic. -/
theorem retrieve_loop_all_ok (limit : ℕ) (rows : List Bool) :
    ∀ cnt, (∀ b ∈ rows, b = true) → ∃ n, retrieve_loop limit rows cnt = some n := by
  induction rows with
  | nil => exact fun cnt _ => ⟨cnt, rfl⟩
  | cons r rest ih =>
    intro cnt hall
    have hr : r = true := hall r (List.mem_cons_self r rest)
    rw [retrieve_loop, hr, if_pos rfl]
    by_cases hstop : cnt + 1 = limit
    · exact ⟨cnt + 1, by rw [if_pos hstop]⟩
    · obtain ⟨n, hn⟩ := ih (cnt + 1) fun b hb => hall b (List.mem_cons_of_mem r hb)
      exact ⟨n, by rw [if_neg hstop]; exact hn⟩

/-- With no query limit, a row that fails to decode makes the row loop
panic. -/
theorem retrieve_loop_panics (rows : List Bool) :
    ∀ cnt, false ∈ rows → retrieve_loop 0 rows cnt = none := by
  induction rows with
  | nil => intro cnt h; cases h
  | cons r rest ih =>
    intro cnt hmem
    cases hr : r with
    | false => rfl
    | true =>
      have hstep : retrieve_loop 0 (true :: rest) cnt = retrieve_loop 0 rest (cnt + 1) := by
        rw [retrieve_loop]
        simp
      rw [hstep]
      rcases List.mem_cons.mp hmem with h | h
      · rw [hr] at h
        exact Bool.noConfusion h
      · exact ih (cnt + 1) h

/-- C6, amended: `retrieve_features` returns 0 when no `SqlQuery` exists for
the zoom and when prepare or execute fails (the count fetched so far, which
is 0 at those points), and it completes with a count when every row decodes;
but a row-level decode error hits `row.unwrap()` and panics instead of
returning the count fetched so far. -/
theorem c6_theorem (env : DbEnv) (layer : Layer) :
    (env.query = none → retrieve_features env layer = some 0) ∧
    (env.prepare_ok = false → retrieve_features env layer = some 0) ∧
    (env.execute_ok = false → retrieve_features env layer = some 0) ∧
    ((∀ b ∈ env.rows, b = true) → ∃ n, retrieve_features env layer = some n) ∧
    (layer.query_limit = none → env.prepare_ok = true → env.execute_ok = true →
      false ∈ env.rows → env.query ≠ none → retrieve_features env layer = none) := by
  refine ⟨?_, ?_, ?_, ?_, ?_⟩
  · intro h
    rw [retrieve_features, h]
  · intro h
    rw [retrieve_features]
    cases hq : env.query with
    | none => rfl
    | some q => simp [h]
  · intro h
    rw [retrieve_features]
    cases hq : env.query with
    | none => rfl
    | some q =>
      by_cases hp : env.prepare_ok <;> simp [h, hp]
  · intro hall
    rw [retrieve_features]
    cases hq : env.query with
    | none => exact ⟨0, rfl⟩
    | some q =>
      by_cases hp : env.prepare_ok
      · by_cases he : env.execute_ok
        · simpa [hp, he] using retrieve_loop_all_ok (layer.query_limit.getD 0) env.rows 0 hall
        · exact ⟨0, by simp [hp, he]⟩
      · exact ⟨0, by simp [hp]⟩
  · intro hlim hp he hmem hq
    rw [retrieve_features]
    cases hqq : env.query with
    | none => exact absurd hqq hq
    | some q =>
      simp only [hp, he, hlim, Bool.not_true, Bool.false_eq_true, if_false, Option.getD_none]
      exact retrieve_loop_panics env.rows 0 hmem

/-- C6, witness: the theorem at an environment with no query for the zoom. -/
theorem c6_witness : retrieve_features emptyQueryEnv polyLayer = some 0 :=
  (c6_theorem emptyQueryEnv polyLayer).1 rfl

/-- The lower bound of a non-empty inclusive zoom range is in the range. -/
theorem mem_zoomRange_self (a b : ℕ) (h : a ≤ b) : a ∈ zoomRange a b := by
  unfold zoomRange
  exact List.mem_map.mpr ⟨0, List.mem_range.mpr (by omega), by omega⟩

/-- C7, counterexample: `prepare_queries` on a layer whose `geometry_field`
is missing does not complete: `build_query_sql` evaluates
`.expect("geometry_field undefined")` and panics (modelled as `none`). -/
theorem c7_counterexample : prepare_queries true [] noGeomLayer 3857 = none := by decide

/-- C7, amended: a layer missing both `table_name` and user queries is not
fatal — `prepare_queries` completes and the zoom levels simply have no query
(an empty map) — but a layer with a missing `geometry_field` (and a
non-empty zoom range) panics inside `build_query`'s
`.expect("geometry_field undefined")` rather than completing. -/
theorem c7_theorem (offline : Bool) (cols : List (String × String)) (layer : Layer)
    (grid_srid : ℤ) :
    (layer.geometry_field = none → layer.query = [] →
      layer.minzoom ≤ layer.maxzoom.getD 22 →
      prepare_queries offline cols layer grid_srid = none) ∧
    (∀ gf, layer.geometry_field = some gf → layer.query = [] → layer.table_name = none →
      prepare_queries offline cols layer grid_srid = some []) := by
  constructor
  · intro hgf hquery hzoom
    have hbq : build_query offline cols layer grid_srid none = none := by
      rw [build_query, build_query_sql, hgf]
    have hgap : ((zoomRange layer.minzoom (layer.maxzoom.getD 22)).any
        fun zoom => !containsKey [] zoom) = true :=
      List.any_eq_true.mpr ⟨layer.minzoom, mem_zoomRange_self _ _ hzoom, rfl⟩
    rw [prepare_queries, hquery]
    simp only [List.foldl_nil, hgap, if_true, hbq]
  · intro gf hgf hquery htable
    have hbq : build_query offline cols layer grid_srid none = some none := by
      rw [build_query, build_query_sql, hgf, build_geom_expr, hgf, htable]
      rfl
    rw [prepare_queries, hquery]
    simp only [List.foldl_nil, hbq]
    split <;> rfl

/-- C7, witness: the theorem at a concrete layer with a geometry field but
neither `table_name` nor user queries. -/
theorem c7_witness : prepare_queries true [] noTableLayer 3857 = some [] :=
  (c7_theorem true [] noTableLayer 3857).2 "geom" rfl rfl rfl

/-- C1, counterexample: for a concrete simplified `POLYGON` layer the
geometry expression built by `build_geom_expr` is
`COALESCE(ST_SnapToGrid(...), ...)` with no `ST_MakeValid` anywhere — the
snapped geometry is not wrapped in `ST_MakeValid` as the claim states. -/
theorem c1_counterexample :
    build_geom_expr polyLayer 3857 =
      some "COALESCE(ST_SnapToGrid(ST_Multi(geom), 10),ST_GeomFromText(\x27MULTIPOLYGON EMPTY\x27,3857))::geometry(MULTIPOLYGON,3857) AS geom" ∧
    strContains
      "COALESCE(ST_SnapToGrid(ST_Multi(geom), 10),ST_GeomFromText(\x27MULTIPOLYGON EMPTY\x27,3857))::geometry(MULTIPOLYGON,3857) AS geom"
      "ST_MakeValid" = false := by
  constructor
  · decide
  · decide

/-- C1, amended: for every layer whose geometry_type is POLYGON,
MULTIPOLYGON or CURVEPOLYGON and for which simplify holds (shown here
without clipping and with the layer in the grid's SRS), `build_geom_expr`
produces the simplification expression
`COALESCE(ST_SnapToGrid(expr, tol),ST_GeomFromText(\x27MULTIPOLYGON EMPTY\x27, srid))::geometry(MULTIPOLYGON,srid)`
— the snapped geometry is not wrapped in `ST_MakeValid` (the source
implements the historical branch the spec's design notes mention). -/
theorem c1_theorem (layer : Layer) (grid_srid : ℤ) (gf gt : String)
    (hgf : layer.geometry_field = some gf)
    (hgt : layer.geometry_type = some gt)
    (hpoly : gt = "POLYGON" ∨ gt = "MULTIPOLYGON" ∨ gt = "CURVEPOLYGON")
    (hsimpl : layer.simplify = true)
    (hbuf : layer.buffer_size = none)
    (hsrid : layer.srid = some grid_srid)
    (hpos : 0 < grid_srid) :
    build_geom_expr layer grid_srid =
      some ("COALESCE(ST_SnapToGrid(" ++
        ("ST_Multi(" ++ (if gt = "CURVEPOLYGON" then "ST_CurveToLine(" ++ gf ++ ")" else gf) ++
          ")") ++
        ", " ++ layer.tolerance ++ ")," ++
        ("ST_GeomFromText(\x27MULTIPOLYGON EMPTY\x27," ++ toString grid_srid ++ ")") ++
        ")::geometry(MULTIPOLYGON," ++ toString grid_srid ++ ")" ++ " AS " ++ gf) := by
  have hns : ¬grid_srid ≤ 0 := by omega
  rw [build_geom_expr, hgf]
  rcases hpoly with h | h | h <;> subst h <;>
    simp [hgt, hbuf, hsimpl, hsrid, hns, strStartsWith, isPrefixL]

/-- C1, witness: the amended theorem at the concrete polygon layer. -/
theorem c1_witness :
    build_geom_expr polyLayer 3857 =
      some ("COALESCE(ST_SnapToGrid(" ++
        ("ST_Multi(" ++
          (if ("POLYGON" : String) = "CURVEPOLYGON" then "ST_CurveToLine(" ++ "geom" ++ ")"
            else "geom") ++ ")") ++
        ", " ++ polyLayer.tolerance ++ ")," ++
        ("ST_GeomFromText(\x27MULTIPOLYGON EMPTY\x27," ++ toString (3857 : ℤ) ++ ")") ++
        ")::geometry(MULTIPOLYGON," ++ toString (3857 : ℤ) ++ ")" ++ " AS " ++ "geom") :=
  c1_theorem polyLayer 3857 "geom" "POLYGON" rfl rfl (Or.inl rfl) rfl rfl rfl (by decide)

/-- C5: `replace_params` scans for `!bbox!`, `!zoom!`, `!pixel_width!`,
`!scale_denominator!` in that fixed order; each present token appends its
`QueryParam` in scan order and consumes slots under one global counter
(`!bbox!` reserves four slots when present, the others one each, with a
`::FLOAT8` cast for pixel-width and scale-denominator and no cast for zoom).
This is stated as: `replace_params` coincides with the specification-shaped
`replace_params_spec`, whose placeholder numbers are the prefix sums of the
slot counts of the present parameters, and the parameter list extends the
input by a sublist of the fixed scan order. -/
theorem c5_theorem (q : SqlQuery) (bbox_expr : String) :
    SqlQuery.replace_params q bbox_expr = replace_params_spec q bbox_expr ∧
    (SqlQuery.replace_params q bbox_expr).params.Sublist
      (q.params ++
        [QueryParam.Bbox, QueryParam.Zoom, QueryParam.PixelWidth,
          QueryParam.ScaleDenominator]) := by
  have heq : SqlQuery.replace_params q bbox_expr = replace_params_spec q bbox_expr := by
    unfold SqlQuery.replace_params replace_params_spec
    by_cases hb : strContains q.sql "!bbox!" = true
    · simp [hb]
      split_ifs <;> simp_all
    · simp [hb]
      split_ifs <;> simp_all
  refine ⟨heq, ?_⟩
  rw [heq]
  unfold replace_params_spec
  dsimp only
  split_ifs <;>
    simp [List.append_assoc, List.append_sublist_append_left, List.sublist_append_left]

/-- A floor is at most a ceiling whenever the two arguments are less than
one apart. -/
theorem floor_le_ceil_of_lt_add_one (x y : ℚ) (h : x < y + 1) : ⌊x⌋ ≤ ⌈y⌉ := by
  by_contra hc
  push_neg at hc
  have h1 : ⌈y⌉ + 1 ≤ ⌊x⌋ := hc
  have h2 : ((⌈y⌉ : ℚ) + 1) ≤ (⌊x⌋ : ℚ) := by exact_mod_cast h1
  have h3 : (⌊x⌋ : ℚ) ≤ x := Int.floor_le x
  have h4 : y ≤ (⌈y⌉ : ℚ) := Int.le_ceil y
  linarith

/-- A ceiling of a number greater than `-1` is non-negative. -/
theorem ceil_nonneg_of_neg_one_lt (y : ℚ) (h : (-1 : ℚ) < y) : 0 ≤ ⌈y⌉ := by
  have := Int.lt_ceil.mpr (show ((-1 : ℤ) : ℚ) < y by exact_mod_cast h)
  omega

/-- The `f64 as u32` cast, seen back in `ℤ`. -/
theorem f64_to_u32_cast (n : ℤ) : ((f64_to_u32 n : ℕ) : ℤ) = max 0 (min 4294967295 n) := by
  unfold f64_to_u32
  omega

/-- Bounds for one axis of a `tile_limits` entry before clamping: with
`x ≤ y` the span positions of the query extent and `S` the span of the grid
(all in tiles), the floored lower index is at most the ceiled upper index,
the ceiled upper index is non-negative, and the floored lower index is at
most the level limit `L` (the clamp bound), provided `L` fits in an `i32`. -/
theorem tile_axis_raw (x y S eps c : ℚ) (L : ℕ)
    (hx : 0 ≤ x) (hxy : x ≤ y) (hyS : y ≤ S)
    (heps0 : 0 < eps) (heps1 : eps < 1/2) (hc0 : 0 < c) (hc1 : c < 1/2)
    (hL : (L : ℤ) = max 0 (min 4294967295 ⌈S - c⌉))
    (hL31 : L < 2147483648) :
    sat_i32 ⌊x + eps⌋ ≤ sat_i32 ⌈y - eps⌉ ∧
    0 ≤ sat_i32 ⌈y - eps⌉ ∧
    sat_i32 ⌊x + eps⌋ ≤ (L : ℤ) ∧
    0 ≤ sat_i32 ⌊x + eps⌋ ∧
    sat_i32 ⌈y - eps⌉ ≤ (L : ℤ) + 1 := by
  have h1 : ⌊x + eps⌋ ≤ ⌈y - eps⌉ :=
    floor_le_ceil_of_lt_add_one _ _ (by linarith)
  have h2 : (0 : ℤ) ≤ ⌈y - eps⌉ :=
    ceil_nonneg_of_neg_one_lt _ (by linarith)
  have h3 : ⌊x + eps⌋ ≤ ⌈S - c⌉ :=
    floor_le_ceil_of_lt_add_one _ _ (by linarith)
  have h4 : (0 : ℤ) ≤ ⌊x + eps⌋ :=
    Int.floor_nonneg.mpr (by linarith)
  have h5 : ⌈y - eps⌉ ≤ ⌈S - c⌉ + 1 := by
    have hmono : ⌈y - eps⌉ ≤ ⌈(S - c) + 1⌉ := Int.ceil_mono (by linarith)
    rwa [Int.ceil_add_one] at hmono
  refine ⟨?_, ?_, ?_, ?_, ?_⟩ <;> simp only [sat_i32] <;> omega

/-- Dividing both sides of an inequality by a positive denominator. -/
theorem div_le_div_same_denom (a b u : ℚ) (h : a ≤ b) (hu : 0 < u) : a / u ≤ b / u := by
  rw [div_eq_mul_inv, div_eq_mul_inv]
  exact mul_le_mul_of_nonneg_right h (inv_nonneg.mpr hu.le)

/-- C4, counterexample: for an input extent entirely left of and below the
wgs84 grid and tolerance 0, the zoom-0 entry of `tile_limits` has
`maxx > level_max.x`: the negative intermediate `maxx` is not clamped to 0
but reinterpreted as a huge `u32` by the `as u32` cast. -/
theorem c4_counterexample :
    ¬((Grid.wgs84.tile_limits { minx := -1000, miny := -1000, maxx := -900, maxy := -900 } 0).getD
        0 { minx := 0, miny := 0, maxx := 0, maxy := 0 }).maxx ≤
      (Grid.wgs84.level_max.getD 0 (0, 0)).1 := by
  rw [Grid.tile_limits, getD_map_range _ 0 _ _ (by norm_num [Grid.nlevels, Grid.wgs84])]
  rw [Grid.level_max, getD_map_range _ 0 _ _ (by norm_num [Grid.nlevels, Grid.wgs84])]
  simp only [Grid.level_limit, Grid.wgs84, List.getD_cons_zero]
  norm_num [qceil_eq_neg_floor_neg, f64_to_u32, sat_i32, wrap_i32, u32_of_i32, i32_of_u32]

/-- C4, amended: `minx`/`miny` are clamped below at 0 and `maxx`/`maxy` are
clamped above at `level_max[z]` (the clamps are not two-sided: a negative
`maxx`/`maxy` survives and wraps through the `as u32` cast, as the
counterexample shows).  For every grid and zoom, every input extent
contained in the grid extent, and every non-negative tolerance small enough
that `tolerance + level_max[z]` stays below `i32::MAX` (so the source's
`i32` additions do not overflow) — with positive resolution and tile
size — the returned `ExtentInt` satisfies `minx ≤ maxx ≤ level_max.x` and
`miny ≤ maxy ≤ level_max.y` (the lower bound 0 holds by the `u32`
representation).  A tolerance large enough to overflow wraps the
intermediate `i32` past the clamp, like the out-of-grid extent of the
counterexample. -/
theorem c4_theorem (g : Grid) (e : Extent) (tol : ℤ) (z : ℕ)
    (hz : z < g.nlevels)
    (hw : 0 < g.width) (hh : 0 < g.height)
    (hres : 0 < g.resolutions.getD z 0)
    (hminx : g.extent.minx ≤ e.minx) (hmaxx : e.maxx ≤ g.extent.maxx)
    (hminy : g.extent.miny ≤ e.miny) (hmaxy : e.maxy ≤ g.extent.maxy)
    (hex : e.minx ≤ e.maxx) (hey : e.miny ≤ e.maxy)
    (htol : 0 ≤ tol)
    (htolx : tol + ((g.level_limit z).1 : ℤ) < 2147483647)
    (htoly : tol + ((g.level_limit z).2 : ℤ) < 2147483647) :
    ((g.tile_limits e tol).getD z { minx := 0, miny := 0, maxx := 0, maxy := 0 }).minx ≤
      ((g.tile_limits e tol).getD z { minx := 0, miny := 0, maxx := 0, maxy := 0 }).maxx ∧
    ((g.tile_limits e tol).getD z { minx := 0, miny := 0, maxx := 0, maxy := 0 }).maxx ≤
      (g.level_max.getD z (0, 0)).1 ∧
    ((g.tile_limits e tol).getD z { minx := 0, miny := 0, maxx := 0, maxy := 0 }).miny ≤
      ((g.tile_limits e tol).getD z { minx := 0, miny := 0, maxx := 0, maxy := 0 }).maxy ∧
    ((g.tile_limits e tol).getD z { minx := 0, miny := 0, maxx := 0, maxy := 0 }).maxy ≤
      (g.level_max.getD z (0, 0)).2 := by
  have huw : (0 : ℚ) < (g.width : ℚ) * g.resolutions.getD z 0 :=
    mul_pos (by exact_mod_cast hw) hres
  have huh : (0 : ℚ) < (g.height : ℚ) * g.resolutions.getD z 0 :=
    mul_pos (by exact_mod_cast hh) hres
  have hrwx : (g.extent.maxx - g.extent.minx - 0.01 * ((g.width : ℚ) * g.resolutions.getD z 0)) /
        ((g.width : ℚ) * g.resolutions.getD z 0) =
      (g.extent.maxx - g.extent.minx) / ((g.width : ℚ) * g.resolutions.getD z 0) - 0.01 := by
    rw [sub_div, mul_div_assoc, div_self huw.ne', mul_one]
  have hrwy : (g.extent.maxy - g.extent.miny - 0.01 * ((g.height : ℚ) * g.resolutions.getD z 0)) /
        ((g.height : ℚ) * g.resolutions.getD z 0) =
      (g.extent.maxy - g.extent.miny) / ((g.height : ℚ) * g.resolutions.getD z 0) - 0.01 := by
    rw [sub_div, mul_div_assoc, div_self huh.ne', mul_one]
  rw [Grid.level_limit] at htolx htoly
  dsimp only at htolx htoly
  rw [hrwx] at htolx
  rw [hrwy] at htoly
  have hlx : f64_to_u32
      ⌈(g.extent.maxx - g.extent.minx) / ((g.width : ℚ) * g.resolutions.getD z 0) - 0.01⌉ <
      2147483648 := by omega
  have hly : f64_to_u32
      ⌈(g.extent.maxy - g.extent.miny) / ((g.height : ℚ) * g.resolutions.getD z 0) - 0.01⌉ <
      2147483648 := by omega
  obtain ⟨hx1, hx2, hx3, hx0, hx4⟩ := tile_axis_raw
    ((e.minx - g.extent.minx) / ((g.width : ℚ) * g.resolutions.getD z 0))
    ((e.maxx - g.extent.minx) / ((g.width : ℚ) * g.resolutions.getD z 0))
    ((g.extent.maxx - g.extent.minx) / ((g.width : ℚ) * g.resolutions.getD z 0))
    0.0000001 0.01
    (f64_to_u32 ⌈(g.extent.maxx - g.extent.minx) / ((g.width : ℚ) * g.resolutions.getD z 0) - 0.01⌉)
    (div_nonneg (by linarith) huw.le)
    (div_le_div_same_denom _ _ _ (by linarith) huw)
    (div_le_div_same_denom _ _ _ (by linarith) huw)
    (by norm_num) (by norm_num) (by norm_num) (by norm_num)
    (f64_to_u32_cast _) hlx
  obtain ⟨hyb1, hyb2, hyb3, hyb0, hyb4⟩ := tile_axis_raw
    ((e.miny - g.extent.miny) / ((g.height : ℚ) * g.resolutions.getD z 0))
    ((e.maxy - g.extent.miny) / ((g.height : ℚ) * g.resolutions.getD z 0))
    ((g.extent.maxy - g.extent.miny) / ((g.height : ℚ) * g.resolutions.getD z 0))
    0.0000001 0.01
    (f64_to_u32 ⌈(g.extent.maxy - g.extent.miny) / ((g.height : ℚ) * g.resolutions.getD z 0) - 0.01⌉)
    (div_nonneg (by linarith) huh.le)
    (div_le_div_same_denom _ _ _ (by linarith) huh)
    (div_le_div_same_denom _ _ _ (by linarith) huh)
    (by norm_num) (by norm_num) (by norm_num) (by norm_num)
    (f64_to_u32_cast _) hly
  obtain ⟨hyt1, hyt2, hyt3, hyt0, hyt4⟩ := tile_axis_raw
    ((g.extent.maxy - e.maxy) / ((g.height : ℚ) * g.resolutions.getD z 0))
    ((g.extent.maxy - e.miny) / ((g.height : ℚ) * g.resolutions.getD z 0))
    ((g.extent.maxy - g.extent.miny) / ((g.height : ℚ) * g.resolutions.getD z 0))
    0.0000001 0.01
    (f64_to_u32 ⌈(g.extent.maxy - g.extent.miny) / ((g.height : ℚ) * g.resolutions.getD z 0) - 0.01⌉)
    (div_nonneg (by linarith) huh.le)
    (div_le_div_same_denom _ _ _ (by linarith) huh)
    (div_le_div_same_denom _ _ _ (by linarith) huh)
    (by norm_num) (by norm_num) (by norm_num) (by norm_num)
    (f64_to_u32_cast _) hly
  rw [Grid.tile_limits, getD_map_range _ z _ _ hz]
  dsimp only
  rw [Grid.level_max, getD_map_range _ z _ _ hz, Grid.level_limit]
  dsimp only
  rw [hrwx, hrwy]
  cases horig : g.origin <;>
    dsimp only <;>
    refine ⟨?_, ?_, ?_, ?_⟩ <;>
    simp only [wrap_i32, u32_of_i32, i32_of_u32] <;>
    split_ifs <;>
    omega

/-- C4, witness: the amended theorem on the wgs84 grid at zoom 0 with an
extent strictly inside the grid and tolerance 0. -/
theorem c4_witness :
    ((Grid.wgs84.tile_limits { minx := -90, miny := -45, maxx := 90, maxy := 45 } 0).getD 0
        { minx := 0, miny := 0, maxx := 0, maxy := 0 }).minx ≤
      ((Grid.wgs84.tile_limits { minx := -90, miny := -45, maxx := 90, maxy := 45 } 0).getD 0
        { minx := 0, miny := 0, maxx := 0, maxy := 0 }).maxx ∧
    ((Grid.wgs84.tile_limits { minx := -90, miny := -45, maxx := 90, maxy := 45 } 0).getD 0
        { minx := 0, miny := 0, maxx := 0, maxy := 0 }).maxx ≤
      (Grid.wgs84.level_max.getD 0 (0, 0)).1 ∧
    ((Grid.wgs84.tile_limits { minx := -90, miny := -45, maxx := 90, maxy := 45 } 0).getD 0
        { minx := 0, miny := 0, maxx := 0, maxy := 0 }).miny ≤
      ((Grid.wgs84.tile_limits { minx := -90, miny := -45, maxx := 90, maxy := 45 } 0).getD 0
        { minx := 0, miny := 0, maxx := 0, maxy := 0 }).maxy ∧
    ((Grid.wgs84.tile_limits { minx := -90, miny := -45, maxx := 90, maxy := 45 } 0).getD 0
        { minx := 0, miny := 0, maxx := 0, maxy := 0 }).maxy ≤
      (Grid.wgs84.level_max.getD 0 (0, 0)).2 :=
  c4_theorem Grid.wgs84 { minx := -90, miny := -45, maxx := 90, maxy := 45 } 0 0
    (by norm_num [Grid.nlevels, Grid.wgs84])
    (by norm_num [Grid.wgs84]) (by norm_num [Grid.wgs84])
    (by norm_num [Grid.wgs84])
    (by norm_num [Grid.wgs84]) (by norm_num [Grid.wgs84])
    (by norm_num [Grid.wgs84]) (by norm_num [Grid.wgs84])
    (by norm_num) (by norm_num) (by norm_num)
    (by simp only [Grid.level_limit, Grid.wgs84, List.getD_cons_zero]
        norm_num [qceil_eq_neg_floor_neg, f64_to_u32])
    (by simp only [Grid.level_limit, Grid.wgs84, List.getD_cons_zero]
        norm_num [qceil_eq_neg_floor_neg, f64_to_u32])

end TRex
